import Mathlib

/-!
Shallow embedding of the PM2 control API (`src/pm2_control.js`).

Each HTTP handler is modelled as a pure function from an oracle `World`
(the results the external process manager and the OS shell would return)
to an `HResult`: the HTTP response together with the ordered trace of
external events the handler issued (connect, disconnect, manager calls,
shell commands).  JavaScript truthiness on the relevant option fields is
modelled explicitly (`jsOrStr`, `jsOrInt`, ...), and `parseInt` is
modelled including its NaN result on non-numeric input.
-/

namespace PM2Control

/-- JS `a || d` for an optional string field: `undefined` and `""` are falsy. -/
def jsOrStr (v : Option String) (d : String) : String :=
  match v with
  | none => d
  | some s => if s = "" then d else s

/-- JS `cwd || undefined`: falsy strings collapse to `undefined`. -/
def jsOrUndef (v : Option String) : Option String :=
  match v with
  | none => none
  | some s => if s = "" then none else some s

/-- JS `n || d` for an optional numeric field: `undefined` and `0` are falsy. -/
def jsOrInt (v : Option Int) (d : Int) : Int :=
  match v with
  | none => d
  | some n => if n = 0 then d else n

/-- JS truthiness of an optional string (`!x` test): true iff absent or empty. -/
def jsFalsyStr (v : Option String) : Bool :=
  match v with
  | none => true
  | some s => s = ""

/-- JS truthiness of an optional epoch-millis value (`x ? _ : _`): `undefined` and `0` are falsy. -/
def jsTruthyMillis (v : Option Int) : Bool :=
  match v with
  | none => false
  | some n => n ≠ 0

/-- JS `parseInt(s, 10)`: skip leading whitespace, optional sign, then a
decimal-digit run; `none` models the NaN result when no digit is found. -/
def parseIntJS (s : String) : Option Int :=
  let cs := s.data.dropWhile (fun c => c = ' ' ∨ c = '\t' ∨ c = '\n' ∨ c = '\r')
  let core : List Char → Option Nat := fun l =>
    let ds := l.takeWhile Char.isDigit
    if ds.isEmpty then none else some (ds.foldl (fun a c => a * 10 + (c.toNat - 48)) 0)
  match cs with
  | '-' :: rest => (core rest).map (fun n => -(n : Int))
  | '+' :: rest => (core rest).map (fun n => (n : Int))
  | _ => (core cs).map (fun n => (n : Int))

/-- How a `parseInt` result renders inside a JS template literal: NaN prints as `"NaN"`. -/
def numToStr : Option Int → String
  | none => "NaN"
  | some n => toString n

/-- The `pm2_env` sub-object of a managed process, as read by the handlers. -/
structure Pm2Env where
  status : String
  pm_cwd : Option String
  pm_uptime : Option Int
  restart_time : Nat
deriving Repr, DecidableEq

/-- A process record returned by the manager (`pm2.list` / `pm2.describe`). -/
structure ProcInfo where
  pm_id : Nat
  name : String
  pid : Option Nat
  pm2_env : Pm2Env
deriving Repr, DecidableEq

/-- `startOpts` object built by the start handler when a script is supplied. -/
structure StartOpts where
  name : String
  script : String
  args : String
  cwd : Option String
  exec_mode : String
  instances : Int
deriving Repr, DecidableEq

/-- The argument the handler passes to `pm2.start`: bare `{name}` or full options. -/
inductive StartArg where
  | byName (name : String)
  | withOpts (opts : StartOpts)
deriving Repr, DecidableEq

/-- One external side effect issued by a handler, in order. -/
inductive Event where
  | connect
  | disconnect
  | pmList
  | pmDescribe (id : String)
  | pmRestart (id : String)
  | pmStop (id : String)
  | pmStart (arg : StartArg)
  | execCmd (cmd : String)
deriving Repr, DecidableEq

/-- Result of `child_process.exec`: optional error (its `.message`), stdout, stderr. -/
structure ExecResult where
  err : Option String
  stdout : String
  stderr : String
deriving Repr, DecidableEq

/-- Oracle for every external call a handler can make.  `connectErr` is the
rejection message of `connectPM2` when the connection open fails. -/
structure World where
  connectErr : Option String
  listRes : Except String (List ProcInfo)
  describeRes : String → Except String (List ProcInfo)
  restartRes : String → Option String
  stopRes : String → Option String
  startRes : StartArg → Except String (List ProcInfo)
  execRes : String → ExecResult

/-- Rendering of one process in the `status/all` response. -/
structure ProcAll where
  id : Nat
  name : String
  pid : Option Nat
  status : String
  cwd : Option String
  uptime_seconds : Int
  restarts : Nat
deriving Repr, DecidableEq

/-- Rendering of one process in the single-token status response. -/
structure ProcOne where
  id : Nat
  name : String
  pid : Option Nat
  status : String
  cwd : Option String
  restarts : Nat
deriving Repr, DecidableEq

/-- JSON (or text) response bodies the handlers can produce. -/
inductive Body where
  | errorB (msg : String)
  | errorDetails (msg details : String)
  | errorGit (msg git_output : String)
  | statusAll (count : Nat) (processes : List ProcAll)
  | statusOne (p : ProcOne)
  | describeB (p : ProcInfo)
  | restartOk (message : String) (id : Nat) (name : String)
  | stopOk (message : String)
  | startOk (message : String) (proc : List ProcInfo)
  | textB (s : String)
  | updateOk (message cwd git_output logs : String)
deriving Repr, DecidableEq

/-- An HTTP response: status code and body. -/
structure Response where
  status : Nat
  body : Body
deriving Repr, DecidableEq

/-- A handler outcome: the response plus the ordered trace of external events. -/
structure HResult where
  resp : Response
  trace : List Event
deriving Repr, DecidableEq

/-- The `Process '<id>' not found` 404 response. -/
def notFoundResp (id : String) : Response :=
  ⟨404, .errorB ("Process '" ++ id ++ "' not found")⟩

/-- `uptime_seconds` field of the `status/all` rendering:
`p.pm2_env.pm_uptime ? Math.floor((Date.now() - p.pm2_env.pm_uptime) / 1000) : 0`. -/
def uptimeSeconds (now : Int) (pm_uptime : Option Int) : Int :=
  if jsTruthyMillis pm_uptime then Int.fdiv (now - pm_uptime.getD 0) 1000 else 0

/-- Per-process rendering in the `status/all` branch. -/
def renderAll (now : Int) (p : ProcInfo) : ProcAll :=
  { id := p.pm_id
    name := p.name
    pid := p.pid
    status := p.pm2_env.status
    cwd := p.pm2_env.pm_cwd
    uptime_seconds := uptimeSeconds now p.pm2_env.pm_uptime
    restarts := p.pm2_env.restart_time }

/-- Per-process rendering in the single-token status branch (no uptime field). -/
def renderOne (p : ProcInfo) : ProcOne :=
  { id := p.pm_id
    name := p.name
    pid := p.pid
    status := p.pm2_env.status
    cwd := p.pm2_env.pm_cwd
    restarts := p.pm2_env.restart_time }

/-- `String(p.pm_id) === String(id) || p.name === id`. -/
def tokenPred (id : String) (p : ProcInfo) : Bool :=
  (toString p.pm_id == id) || (p.name == id)

/-- Response of `GET /pm2/status/:id` once connected (`pm2.list` callback). -/
def statusResponse (w : World) (id : String) (now : Int) : Response :=
  match w.listRes with
  | .error e => ⟨500, .errorB e⟩
  | .ok list =>
    if id = "all" then
      ⟨200, .statusAll (list.map (renderAll now)).length (list.map (renderAll now))⟩
    else
      match list.find? (tokenPred id) with
      | none => notFoundResp id
      | some found => ⟨200, .statusOne (renderOne found)⟩

/-- `GET /pm2/status/:id`. -/
def statusHandler (w : World) (id : String) (now : Int) : HResult :=
  match w.connectErr with
  | some e => ⟨⟨500, .errorB e⟩, []⟩
  | none => ⟨statusResponse w id now, [.connect, .pmList, .disconnect]⟩

/-- Response of `GET /pm2/describe/:id` once connected. -/
def describeResponse (w : World) (id : String) : Response :=
  match w.describeRes id with
  | .error e => ⟨500, .errorB e⟩
  | .ok [] => notFoundResp id
  | .ok (p :: _) => ⟨200, .describeB p⟩

/-- `GET /pm2/describe/:id`. -/
def describeHandler (w : World) (id : String) : HResult :=
  match w.connectErr with
  | some e => ⟨⟨500, .errorB e⟩, []⟩
  | none => ⟨describeResponse w id, [.connect, .pmDescribe id, .disconnect]⟩

/-- `POST /pm2/restart/:id`: describe first; on describe error or empty list,
404 without issuing the restart; otherwise restart and report. -/
def restartHandler (w : World) (id : String) : HResult :=
  match w.connectErr with
  | some e => ⟨⟨500, .errorB e⟩, []⟩
  | none =>
    match w.describeRes id with
    | .error _ => ⟨notFoundResp id, [.connect, .pmDescribe id, .disconnect]⟩
    | .ok [] => ⟨notFoundResp id, [.connect, .pmDescribe id, .disconnect]⟩
    | .ok (proc :: _) =>
      ⟨(match w.restartRes id with
        | some e => ⟨500, .errorB e⟩
        | none => ⟨200, .restartOk ("Process '" ++ proc.name ++ "' restarted")
                    proc.pm_id proc.name⟩),
       [.connect, .pmDescribe id, .pmRestart id, .disconnect]⟩

/-- `POST /pm2/stop/:id`: stop directly, no existence pre-check. -/
def stopHandler (w : World) (id : String) : HResult :=
  match w.connectErr with
  | some e => ⟨⟨500, .errorB e⟩, []⟩
  | none =>
    ⟨(match w.stopRes id with
      | some e => ⟨500, .errorB e⟩
      | none => ⟨200, .stopOk ("Process '" ++ id ++ "' stopped")⟩),
     [.connect, .pmStop id, .disconnect]⟩

/-- Request body of `POST /pm2/start/:id`. -/
structure StartBody where
  script : Option String
  args : Option String
  cwd : Option String
  exec_mode : Option String
  instances : Option Int
deriving Repr, DecidableEq

/-- The `startOpts` object the handler builds when `script` is present. -/
def mkStartOpts (id : String) (b : StartBody) : StartOpts :=
  { name := id
    script := b.script.getD ""
    args := jsOrStr b.args ""
    cwd := jsOrUndef b.cwd
    exec_mode := jsOrStr b.exec_mode "fork"
    instances := jsOrInt b.instances 1 }

/-- `POST /pm2/start/:id`. -/
def startHandler (w : World) (id : String) (b : StartBody) : HResult :=
  match w.connectErr with
  | some e => ⟨⟨500, .errorB e⟩, []⟩
  | none =>
    if jsFalsyStr b.script then
      ⟨(match w.startRes (.byName id) with
        | .error e => ⟨400, .errorDetails "Missing script; and starting by name failed" e⟩
        | .ok proc => ⟨200, .startOk ("Process '" ++ id ++ "' started") proc⟩),
       [.connect, .pmStart (.byName id), .disconnect]⟩
    else
      ⟨(match w.startRes (.withOpts (mkStartOpts id b)) with
        | .error e => ⟨500, .errorB e⟩
        | .ok proc => ⟨200, .startOk ("Process '" ++ id ++ "' started with script") proc⟩),
       [.connect, .pmStart (.withOpts (mkStartOpts id b)), .disconnect]⟩

/-- Shell command of `GET /pm2/logs/:id`:
`pm2 logs ${id} --lines ${lines} --nostream` with the raw id interpolated. -/
def logsCmd (id : String) (linesStr : String) : String :=
  "pm2 logs " ++ id ++ " --lines " ++ linesStr ++ " --nostream"

/-- `GET /pm2/logs/:id`.  Never touches the manager connection; the only
external call is the shell command.  `err ⇒ 500 (stderr || err.message)`. -/
def logsHandler (w : World) (id : String) (linesQ : Option String) : HResult :=
  let lines := parseIntJS (jsOrStr linesQ "30")
  let cmd := logsCmd id (numToStr lines)
  let r := w.execRes cmd
  match r.err with
  | some m => ⟨⟨500, .errorB (if r.stderr = "" then m else r.stderr)⟩, [.execCmd cmd]⟩
  | none => ⟨⟨200, .textB r.stdout⟩, [.execCmd cmd]⟩

/-- Shell command of the Update pull stage:
`cd ${cwd} && git stash --include-untracked && git pull`. -/
def gitCmd (cwd : String) : String :=
  "cd " ++ cwd ++ " && git stash --include-untracked && git pull"

/-- Shell command of the Update tail stage: `pm2 logs ${id} --lines 10 --nostream`. -/
def tailCmd (id : String) : String :=
  "pm2 logs " ++ id ++ " --lines 10 --nostream"

/-- `POST /pm2/update/:id`: describe, locate `pm_cwd`, git stash+pull (issued
while still connected; disconnect happens inside the callbacks), restart,
then best-effort 10-line log tail after the disconnect. -/
def updateHandler (w : World) (id : String) : HResult :=
  match w.connectErr with
  | some e => ⟨⟨500, .errorB e⟩, []⟩
  | none =>
    match w.describeRes id with
    | .error _ => ⟨notFoundResp id, [.connect, .pmDescribe id, .disconnect]⟩
    | .ok [] => ⟨notFoundResp id, [.connect, .pmDescribe id, .disconnect]⟩
    | .ok (proc :: _) =>
      if jsFalsyStr proc.pm2_env.pm_cwd then
        ⟨⟨400, .errorB "Cannot determine working directory (pm_cwd) for process"⟩,
         [.connect, .pmDescribe id, .disconnect]⟩
      else
        let cwd := proc.pm2_env.pm_cwd.getD ""
        let g := w.execRes (gitCmd cwd)
        match g.err with
        | some gm =>
          ⟨⟨500, .errorB (if g.stderr = "" then gm else g.stderr)⟩,
           [.connect, .pmDescribe id, .execCmd (gitCmd cwd), .disconnect]⟩
        | none =>
          match w.restartRes id with
          | some rm =>
            ⟨⟨500, .errorGit rm g.stdout⟩,
             [.connect, .pmDescribe id, .execCmd (gitCmd cwd), .pmRestart id, .disconnect]⟩
          | none =>
            let l := w.execRes (tailCmd id)
            let logs := match l.err with
              | some lm => "Could not fetch logs: " ++ lm
              | none => l.stdout
            ⟨⟨200, .updateOk ("Updated and restarted '" ++ proc.name ++ "'")
                cwd g.stdout.trim logs.trim⟩,
             [.connect, .pmDescribe id, .execCmd (gitCmd cwd), .pmRestart id,
              .disconnect, .execCmd (tailCmd id)]⟩

/-- Discriminator for connect events. -/
def isConnectEv : Event → Bool
  | .connect => true
  | _ => false

/-- Discriminator for disconnect events. -/
def isDisconnectEv : Event → Bool
  | .disconnect => true
  | _ => false

/-- Number of connection opens in a trace. -/
def opens (tr : List Event) : Nat := tr.countP isConnectEv

/-- Number of connection releases in a trace. -/
def closes (tr : List Event) : Nat := tr.countP isDisconnectEv

/-- The per-request session discipline: when the connection open succeeds the
trace opens and closes it exactly once (the open first); when the open fails
no external event is issued at all. -/
def balancedTrace (connectOk : Bool) (tr : List Event) : Prop :=
  if connectOk then opens tr = 1 ∧ closes tr = 1 ∧ tr.head? = some .connect
  else tr = []

/-- Discriminator for an exec event of a given command. -/
def isExecOf (c : String) (e : Event) : Bool :=
  match e with
  | .execCmd c2 => c2 == c
  | _ => false

/-- C2's property as stated: every issue of the given shell command is
preceded by a disconnect (nothing before the first disconnect execs it). -/
def releasedBeforeExec (tr : List Event) (c : String) : Bool :=
  (tr.takeWhile (fun e => !(isDisconnectEv e))).all (fun e => !(isExecOf c e))

end PM2Control

namespace PM2Control

/-- A managed process used as concrete test data: id 3, name `api`,
cwd `/srv/api`, started at epoch-millis 5000. -/
def proc0 : ProcInfo := ⟨3, "api", some 100, ⟨"online", some "/srv/api", some 5000, 0⟩⟩

/-- A deterministic oracle: connect succeeds, every manager call succeeds with
`proc0`, and every shell command echoes its own text on stdout. -/
def w0 : World :=
  { connectErr := none
    listRes := .ok [proc0]
    describeRes := fun _ => .ok [proc0]
    restartRes := fun _ => none
    stopRes := fun _ => none
    startRes := fun _ => .ok []
    execRes := fun c => ⟨none, c, ""⟩ }

/-- Like `w0` but the manager restart call fails with `spawn error`. -/
def wRestartFail : World := { w0 with restartRes := fun _ => some "spawn error" }

/-- Like `w0` but every manager start call fails with `start failed`. -/
def wStartFail : World := { w0 with startRes := fun _ => .error "start failed" }

/-- Start body with a script and no optional fields. -/
def bodyScriptOnly : StartBody := ⟨some "/srv/api/server.js", none, none, none, none⟩

/-- Start body requesting zero instances and an empty exec mode. -/
def bodyFalsyFields : StartBody := ⟨some "/srv/api/server.js", none, none, some "", some 0⟩

/-- Whether every rendering in a `status/all` body has a nonnegative uptime. -/
def allUptimesNonneg : Body → Bool
  | .statusAll _ ps => ps.all (fun p => decide (0 ≤ p.uptime_seconds))
  | _ => true

/-- Whether a describe result is a miss: transport error or empty list. -/
def describeMiss : Except String (List ProcInfo) → Bool
  | .error _ => true
  | .ok [] => true
  | .ok (_ :: _) => false

/-- Helper: `List.find?` returns the first element satisfying the predicate:
it satisfies it, and everything before it in the list does not. -/
theorem first_match_decomp {α : Type} (p : α → Bool) (l : List α) (a : α)
    (h : l.find? p = some a) :
    p a = true ∧ ∃ l1 l2, l = l1 ++ a :: l2 ∧ ∀ b ∈ l1, p b = false := by
  induction l with
  | nil => simp [List.find?] at h
  | cons x xs ih =>
    cases hx : p x with
    | true =>
      rw [List.find?_cons_of_pos _ hx] at h
      injection h with h
      subst h
      exact ⟨hx, [], xs, rfl, by simp⟩
    | false =>
      rw [List.find?_cons_of_neg _ (by simp [hx])] at h
      obtain ⟨hpa, l1, l2, heq, hpre⟩ := ih h
      refine ⟨hpa, x :: l1, l2, by simp [heq], ?_⟩
      intro b hb
      rcases List.mem_cons.mp hb with rfl | hb
      · exact hx
      · exact hpre b hb

/-- Claim C1: every operation that talks to the process manager (Status,
Describe, Restart, Stop, Start, Update) opens the manager connection exactly
once and closes it exactly once before the response is finalized, on every
outcome path; when the connection open itself fails, the action is not run
and no external event at all is issued. -/
theorem c1_session_balance (w : World) (id : String) (now : Int) (b : StartBody) :
    balancedTrace w.connectErr.isNone (statusHandler w id now).trace ∧
    balancedTrace w.connectErr.isNone (describeHandler w id).trace ∧
    balancedTrace w.connectErr.isNone (restartHandler w id).trace ∧
    balancedTrace w.connectErr.isNone (stopHandler w id).trace ∧
    balancedTrace w.connectErr.isNone (startHandler w id b).trace ∧
    balancedTrace w.connectErr.isNone (updateHandler w id).trace := by
  cases hce : w.connectErr with
  | some e =>
    simp [balancedTrace, statusHandler, describeHandler, restartHandler, stopHandler,
          startHandler, updateHandler, hce]
  | none =>
    refine ⟨?_, ?_, ?_, ?_, ?_, ?_⟩
    · simp [statusHandler, hce, balancedTrace, opens, closes, List.countP_cons,
            List.countP_nil, isConnectEv, isDisconnectEv]
    · simp [describeHandler, hce, balancedTrace, opens, closes, List.countP_cons,
            List.countP_nil, isConnectEv, isDisconnectEv]
    · rcases hd : w.describeRes id with e | l
      · simp [restartHandler, hce, hd, balancedTrace, opens, closes, List.countP_cons,
              List.countP_nil, isConnectEv, isDisconnectEv]
      · cases l <;>
          simp [restartHandler, hce, hd, balancedTrace, opens, closes, List.countP_cons,
                List.countP_nil, isConnectEv, isDisconnectEv]
    · simp [stopHandler, hce, balancedTrace, opens, closes, List.countP_cons,
            List.countP_nil, isConnectEv, isDisconnectEv]
    · cases hs : jsFalsyStr b.script <;>
        simp [startHandler, hce, hs, balancedTrace, opens, closes, List.countP_cons,
              List.countP_nil, isConnectEv, isDisconnectEv]
    · rcases hd : w.describeRes id with e | l
      · simp [updateHandler, hce, hd, balancedTrace, opens, closes, List.countP_cons,
              List.countP_nil, isConnectEv, isDisconnectEv]
      · cases l with
        | nil =>
          simp [updateHandler, hce, hd, balancedTrace, opens, closes, List.countP_cons,
                List.countP_nil, isConnectEv, isDisconnectEv]
        | cons proc rest =>
          cases hcwd : jsFalsyStr proc.pm2_env.pm_cwd
          · rcases hg : (w.execRes (gitCmd (proc.pm2_env.pm_cwd.getD ""))).err with _ | gm
            · rcases hr : w.restartRes id with _ | rm
              · simp [updateHandler, hce, hd, hcwd, hg, hr, balancedTrace, opens, closes,
                      List.countP_cons, List.countP_nil, isConnectEv, isDisconnectEv]
              · simp [updateHandler, hce, hd, hcwd, hg, hr, balancedTrace, opens, closes,
                      List.countP_cons, List.countP_nil, isConnectEv, isDisconnectEv]
            · simp [updateHandler, hce, hd, hcwd, hg, balancedTrace, opens, closes,
                    List.countP_cons, List.countP_nil, isConnectEv, isDisconnectEv]
          · simp [updateHandler, hce, hd, hcwd, balancedTrace, opens, closes,
                  List.countP_cons, List.countP_nil, isConnectEv, isDisconnectEv]

end PM2Control

namespace PM2Control

/-- Claim C2 counterexample: in the concrete world `w0`, the Update handler
issues the git stash+pull command, and it is not preceded by a disconnect
of the manager connection (the pull runs while the connection is open),
refuting the claim that the connection is released before the pull. -/
theorem c2_counterexample :
    Event.execCmd (gitCmd "/srv/api") ∈ (updateHandler w0 "api").trace ∧
    releasedBeforeExec (updateHandler w0 "api").trace (gitCmd "/srv/api") = false := by
  decide

/-- Claim C2 (amended): in the Update operation, every execution that reaches
the Pull stage issues the git stash+pull command while the manager connection
is still open — the trace begins connect, describe, git-exec, with the
disconnect strictly after the pull exec. -/
theorem c2_amended_pull_while_connected (w : World) (id : String)
    (proc : ProcInfo) (rest : List ProcInfo)
    (hc : w.connectErr = none)
    (hd : w.describeRes id = .ok (proc :: rest))
    (hcwd : jsFalsyStr proc.pm2_env.pm_cwd = false) :
    (updateHandler w id).trace.take 3 =
      [Event.connect, Event.pmDescribe id,
       Event.execCmd (gitCmd (proc.pm2_env.pm_cwd.getD ""))] ∧
    Event.disconnect ∈ (updateHandler w id).trace.drop 3 := by
  rcases hg : (w.execRes (gitCmd (proc.pm2_env.pm_cwd.getD ""))).err with _ | gm
  · rcases hr : w.restartRes id with _ | rm
    · simp [updateHandler, hc, hd, hcwd, hg, hr]
    · simp [updateHandler, hc, hd, hcwd, hg, hr]
  · simp [updateHandler, hc, hd, hcwd, hg]

/-- Witness for the amended C2 at the concrete world `w0`. -/
theorem c2_amended_witness :
    w0.connectErr = none ∧ w0.describeRes "api" = .ok [proc0] ∧
    jsFalsyStr proc0.pm2_env.pm_cwd = false ∧
    ((updateHandler w0 "api").trace.take 3 =
      [Event.connect, Event.pmDescribe "api",
       Event.execCmd (gitCmd (proc0.pm2_env.pm_cwd.getD ""))] ∧
     Event.disconnect ∈ (updateHandler w0 "api").trace.drop 3) :=
  ⟨rfl, rfl, by decide,
   c2_amended_pull_while_connected w0 "api" proc0 [] rfl rfl (by decide)⟩

/-- Claim C3 counterexample: with a non-numeric `lines` value the Logs
handler execs `pm2 logs api --lines NaN --nostream`, while omitting `lines`
execs `--lines 30`; invocation and response differ, refuting the claim that
the two behave identically. -/
theorem c3_counterexample :
    (logsHandler w0 "api" (some "abc")).trace =
      [Event.execCmd "pm2 logs api --lines NaN --nostream"] ∧
    (logsHandler w0 "api" none).trace =
      [Event.execCmd "pm2 logs api --lines 30 --nostream"] ∧
    logsHandler w0 "api" (some "abc") ≠ logsHandler w0 "api" none := by
  decide

/-- Claim C3 (amended): a non-numeric `lines` value parses to NaN, which is
interpolated literally into the log-tail command (`--lines NaN`); the parse
failure never produces an error response by itself — the response is
determined solely by the external command's outcome. -/
theorem c3_amended_nan_interpolation (w : World) (id : String) (q : Option String)
    (h : parseIntJS (jsOrStr q "30") = none) :
    (logsHandler w id q).trace = [Event.execCmd (logsCmd id "NaN")] ∧
    (logsHandler w id q).resp =
      (match (w.execRes (logsCmd id "NaN")).err with
       | some m => ⟨500, .errorB (if (w.execRes (logsCmd id "NaN")).stderr = "" then m
                                  else (w.execRes (logsCmd id "NaN")).stderr)⟩
       | none => ⟨200, .textB (w.execRes (logsCmd id "NaN")).stdout⟩) := by
  rcases he : (w.execRes (logsCmd id "NaN")).err with _ | m
  · simp [logsHandler, h, numToStr, he]
  · simp [logsHandler, h, numToStr, he]

/-- Witness for the amended C3 at the concrete world `w0` with `lines=abc`. -/
theorem c3_amended_witness :
    parseIntJS (jsOrStr (some "abc") "30") = none ∧
    ((logsHandler w0 "api" (some "abc")).trace = [Event.execCmd (logsCmd "api" "NaN")] ∧
     (logsHandler w0 "api" (some "abc")).resp =
      (match (w0.execRes (logsCmd "api" "NaN")).err with
       | some m => ⟨500, .errorB (if (w0.execRes (logsCmd "api" "NaN")).stderr = "" then m
                                  else (w0.execRes (logsCmd "api" "NaN")).stderr)⟩
       | none => ⟨200, .textB (w0.execRes (logsCmd "api" "NaN")).stdout⟩)) :=
  ⟨by decide, c3_amended_nan_interpolation w0 "api" (some "abc") (by decide)⟩

/-- Claim C4 counterexample: at `now = 0` with a process whose
`pm_uptime = 5000` lies in the future, the `status/all` rendering contains a
negative `uptime_seconds` (namely -5), refuting the claim that the derived
uptime is clamped at 0 and never negative. -/
theorem c4_counterexample :
    (statusHandler w0 "all" 0).resp.status = 200 ∧
    allUptimesNonneg (statusHandler w0 "all" 0).resp.body = false := by
  decide

/-- Claim C4 (amended): for Status with token `all`, each process is rendered
with `uptime_seconds = floor((now - pm_uptime)/1000)` when `pm_uptime` is set
and nonzero, and 0 when it is absent or zero; there is no clamping, so the
value is negative when `pm_uptime` lies in the future of `now`. -/
theorem c4_amended_uptime_unclamped (w : World) (now : Int) (l : List ProcInfo)
    (hc : w.connectErr = none) (hl : w.listRes = .ok l) :
    (statusHandler w "all" now).resp =
      ⟨200, .statusAll l.length (l.map (renderAll now))⟩ ∧
    ∀ p ∈ l, (renderAll now p).uptime_seconds =
      (match p.pm2_env.pm_uptime with
       | some u => if u ≠ 0 then Int.fdiv (now - u) 1000 else 0
       | none => 0) := by
  constructor
  · simp [statusHandler, hc, statusResponse, hl]
  · intro p _
    rcases hu : p.pm2_env.pm_uptime with _ | u
    · simp [renderAll, uptimeSeconds, jsTruthyMillis, hu]
    · by_cases h0 : u = 0 <;>
        simp [renderAll, uptimeSeconds, jsTruthyMillis, hu, h0]

/-- Witness for the amended C4 at the concrete world `w0` and `now = 0`. -/
theorem c4_amended_witness :
    w0.connectErr = none ∧ w0.listRes = .ok [proc0] ∧
    ((statusHandler w0 "all" 0).resp =
      ⟨200, .statusAll 1 ([proc0].map (renderAll 0))⟩ ∧
     ∀ p ∈ [proc0], (renderAll 0 p).uptime_seconds =
      (match p.pm2_env.pm_uptime with
       | some u => if u ≠ 0 then Int.fdiv (0 - u) 1000 else 0
       | none => 0)) :=
  ⟨rfl, rfl, c4_amended_uptime_unclamped w0 0 [proc0] rfl rfl⟩

/-- Claim C5: for a token other than `all`, Status returns the first process
in list order whose stringified manager id equals the token OR whose name
equals the token — one pass, no priority between the two criteria — and
returns the 404 not-found response when no process matches. -/
theorem c5_resolver_first_match (w : World) (id : String) (now : Int) (l : List ProcInfo)
    (hc : w.connectErr = none) (hl : w.listRes = .ok l) (hid : id ≠ "all") :
    (l.find? (tokenPred id) = none →
       (statusHandler w id now).resp = notFoundResp id ∧
       ∀ q ∈ l, tokenPred id q = false) ∧
    (∀ p, l.find? (tokenPred id) = some p →
       (statusHandler w id now).resp = ⟨200, .statusOne (renderOne p)⟩ ∧
       tokenPred id p = true ∧
       ∃ l1 l2, l = l1 ++ p :: l2 ∧ ∀ q ∈ l1, tokenPred id q = false) := by
  constructor
  · intro hn
    constructor
    · simp [statusHandler, hc, statusResponse, hl, hid, hn]
    · intro q hq
      have := List.find?_eq_none.mp hn q hq
      simpa using this
  · intro p hp
    refine ⟨?_, first_match_decomp _ _ _ hp⟩
    simp [statusHandler, hc, statusResponse, hl, hid, hp]

/-- Witness for C5 at the concrete world `w0` and token `api`. -/
theorem c5_resolver_witness :
    w0.connectErr = none ∧ w0.listRes = .ok [proc0] ∧ "api" ≠ "all" ∧
    (([proc0].find? (tokenPred "api") = none →
       (statusHandler w0 "api" 0).resp = notFoundResp "api" ∧
       ∀ q ∈ [proc0], tokenPred "api" q = false) ∧
     (∀ p, [proc0].find? (tokenPred "api") = some p →
       (statusHandler w0 "api" 0).resp = ⟨200, .statusOne (renderOne p)⟩ ∧
       tokenPred "api" p = true ∧
       ∃ l1 l2, [proc0] = l1 ++ p :: l2 ∧ ∀ q ∈ l1, tokenPred "api" q = false)) :=
  ⟨rfl, rfl, by decide, c5_resolver_first_match w0 "api" 0 [proc0] rfl rfl (by decide)⟩

/-- Claim C6: Restart issues Describe before any Restart call — when the
restart event is in the trace, the trace starts connect, describe, restart —
and when Describe errors or returns an empty descriptor the manager Restart
call is never issued and the response is the 404 not-found response. -/
theorem c6_describe_before_restart (w : World) (id : String)
    (hc : w.connectErr = none) :
    (describeMiss (w.describeRes id) = true →
       (restartHandler w id).resp = notFoundResp id ∧
       Event.pmRestart id ∉ (restartHandler w id).trace) ∧
    (Event.pmRestart id ∈ (restartHandler w id).trace →
       (restartHandler w id).trace.take 3 =
         [Event.connect, Event.pmDescribe id, Event.pmRestart id]) := by
  rcases hd : w.describeRes id with e | l
  · constructor
    · intro _
      simp [restartHandler, hc, hd]
    · intro hm
      simp [restartHandler, hc, hd] at hm
  · cases l with
    | nil =>
      constructor
      · intro _
        simp [restartHandler, hc, hd]
      · intro hm
        simp [restartHandler, hc, hd] at hm
    | cons proc rest =>
      constructor
      · intro hmiss
        simp [describeMiss, hd] at hmiss
      · intro _
        simp [restartHandler, hc, hd]

/-- Witness for C6 at the concrete world `w0`. -/
theorem c6_witness :
    w0.connectErr = none ∧
    ((describeMiss (w0.describeRes "api") = true →
       (restartHandler w0 "api").resp = notFoundResp "api" ∧
       Event.pmRestart "api" ∉ (restartHandler w0 "api").trace) ∧
     (Event.pmRestart "api" ∈ (restartHandler w0 "api").trace →
       (restartHandler w0 "api").trace.take 3 =
         [Event.connect, Event.pmDescribe "api", Event.pmRestart "api"])) :=
  ⟨rfl, c6_describe_before_restart w0 "api" rfl⟩

/-- Claim C7: in Update, when the pull succeeds and the restart fails, the
response is a 500 whose error field is the restart failure message and whose
`git_output` field is the pull stage's captured stdout — the pull output is
not dropped. -/
theorem c7_restart_failure_keeps_git_output (w : World) (id : String)
    (proc : ProcInfo) (rest : List ProcInfo) (rm : String)
    (hc : w.connectErr = none)
    (hd : w.describeRes id = .ok (proc :: rest))
    (hcwd : jsFalsyStr proc.pm2_env.pm_cwd = false)
    (hg : (w.execRes (gitCmd (proc.pm2_env.pm_cwd.getD ""))).err = none)
    (hr : w.restartRes id = some rm) :
    (updateHandler w id).resp =
      ⟨500, .errorGit rm (w.execRes (gitCmd (proc.pm2_env.pm_cwd.getD ""))).stdout⟩ := by
  simp [updateHandler, hc, hd, hcwd, hg, hr]

/-- Witness for C7: `spawn error` restart failure at the concrete world. -/
theorem c7_witness :
    wRestartFail.connectErr = none ∧
    wRestartFail.describeRes "api" = .ok [proc0] ∧
    jsFalsyStr proc0.pm2_env.pm_cwd = false ∧
    (wRestartFail.execRes (gitCmd (proc0.pm2_env.pm_cwd.getD ""))).err = none ∧
    wRestartFail.restartRes "api" = some "spawn error" ∧
    (updateHandler wRestartFail "api").resp =
      ⟨500, .errorGit "spawn error"
        (wRestartFail.execRes (gitCmd (proc0.pm2_env.pm_cwd.getD ""))).stdout⟩ :=
  ⟨rfl, rfl, by decide, rfl, rfl,
   c7_restart_failure_keeps_git_output wRestartFail "api" proc0 [] "spawn error"
     rfl rfl (by decide) rfl rfl⟩

/-- Claim C8: Start with no script and a failing by-name start yields a 400
validation error carrying the manager's detail; Start with a script always
issues a fresh-launch call whose options default `exec_mode` to `fork` and
`instances` to 1 when unspecified, and a manager error on that call yields
a 500 transport error. -/
theorem c8_start_modes (w : World) (id : String) (b : StartBody)
    (hc : w.connectErr = none) :
    (jsFalsyStr b.script = true →
       ∀ e, w.startRes (.byName id) = .error e →
         (startHandler w id b).resp =
           ⟨400, .errorDetails "Missing script; and starting by name failed" e⟩) ∧
    (jsFalsyStr b.script = false →
       Event.pmStart (.withOpts (mkStartOpts id b)) ∈ (startHandler w id b).trace ∧
       (b.exec_mode = none → (mkStartOpts id b).exec_mode = "fork") ∧
       (b.instances = none → (mkStartOpts id b).instances = 1) ∧
       (∀ e, w.startRes (.withOpts (mkStartOpts id b)) = .error e →
          (startHandler w id b).resp = ⟨500, .errorB e⟩)) := by
  constructor
  · intro hs e he
    simp [startHandler, hc, hs, he]
  · intro hs
    refine ⟨?_, ?_, ?_, ?_⟩
    · simp [startHandler, hc, hs]
    · intro hm; simp [mkStartOpts, hm, jsOrStr]
    · intro hi; simp [mkStartOpts, hi, jsOrInt]
    · intro e he
      simp [startHandler, hc, hs, he]

/-- Witness for C8 at the concrete failing-start world. -/
theorem c8_witness :
    wStartFail.connectErr = none ∧
    ((jsFalsyStr bodyScriptOnly.script = true →
       ∀ e, wStartFail.startRes (.byName "api") = .error e →
         (startHandler wStartFail "api" bodyScriptOnly).resp =
           ⟨400, .errorDetails "Missing script; and starting by name failed" e⟩) ∧
     (jsFalsyStr bodyScriptOnly.script = false →
       Event.pmStart (.withOpts (mkStartOpts "api" bodyScriptOnly)) ∈
         (startHandler wStartFail "api" bodyScriptOnly).trace ∧
       (bodyScriptOnly.exec_mode = none →
          (mkStartOpts "api" bodyScriptOnly).exec_mode = "fork") ∧
       (bodyScriptOnly.instances = none →
          (mkStartOpts "api" bodyScriptOnly).instances = 1) ∧
       (∀ e, wStartFail.startRes (.withOpts (mkStartOpts "api" bodyScriptOnly)) = .error e →
          (startHandler wStartFail "api" bodyScriptOnly).resp = ⟨500, .errorB e⟩))) :=
  ⟨rfl, c8_start_modes wStartFail "api" bodyScriptOnly rfl⟩

/-- Claim C9: falsy values for `instances` or `exec_mode` (0, empty string)
are treated the same as the fields being unspecified — the whole handler
behaves identically, the launch options carry `instances = 1` and
`exec_mode = fork`, and a request for zero instances cannot be expressed. -/
theorem c9_falsy_start_fields (w : World) (id : String) (b : StartBody)
    (hm : b.exec_mode = some "") (hi : b.instances = some 0) :
    startHandler w id b =
      startHandler w id { b with exec_mode := none, instances := none } ∧
    (mkStartOpts id b).exec_mode = "fork" ∧
    (mkStartOpts id b).instances = 1 := by
  have hopts : mkStartOpts id b =
      mkStartOpts id { b with exec_mode := none, instances := none } := by
    simp [mkStartOpts, hm, hi, jsOrStr, jsOrInt]
  refine ⟨?_, ?_, ?_⟩
  · simp [startHandler, hopts]
  · simp [mkStartOpts, hm, jsOrStr]
  · simp [mkStartOpts, hi, jsOrInt]

/-- Witness for C9 at a body requesting zero instances and empty exec mode. -/
theorem c9_witness :
    bodyFalsyFields.exec_mode = some "" ∧ bodyFalsyFields.instances = some 0 ∧
    (startHandler w0 "api" bodyFalsyFields =
      startHandler w0 "api" { bodyFalsyFields with exec_mode := none, instances := none } ∧
     (mkStartOpts "api" bodyFalsyFields).exec_mode = "fork" ∧
     (mkStartOpts "api" bodyFalsyFields).instances = 1) :=
  ⟨rfl, rfl, c9_falsy_start_fields w0 "api" bodyFalsyFields rfl rfl⟩

/-- Claim C10: the shell command strings passed to the OS executor are the
literal templates with the raw caller-supplied token (and descriptor-supplied
directory) interpolated verbatim, with no escaping or validation: the Logs
handler execs exactly `pm2 logs <id> --lines <n> --nostream`, and every exec
the Update handler issues is exactly the git template around the raw cwd or
the tail template around the raw id. -/
theorem c10_raw_interpolation (w : World) (id : String) (q : Option String)
    (proc : ProcInfo) (rest : List ProcInfo)
    (hc : w.connectErr = none) (hd : w.describeRes id = .ok (proc :: rest)) :
    (logsHandler w id q).trace =
      [Event.execCmd ("pm2 logs " ++ id ++ " --lines "
        ++ numToStr (parseIntJS (jsOrStr q "30")) ++ " --nostream")] ∧
    (∀ c, Event.execCmd c ∈ (updateHandler w id).trace →
       c = "cd " ++ proc.pm2_env.pm_cwd.getD ""
             ++ " && git stash --include-untracked && git pull" ∨
       c = "pm2 logs " ++ id ++ " --lines 10 --nostream") := by
  constructor
  · rcases he : (w.execRes (logsCmd id (numToStr (parseIntJS (jsOrStr q "30"))))).err with _ | m <;>
      · simp only [logsCmd] at he
        simp [logsHandler, logsCmd, he]
  · intro c hcmem
    cases hcwd : jsFalsyStr proc.pm2_env.pm_cwd
    · rcases hg : (w.execRes (gitCmd (proc.pm2_env.pm_cwd.getD ""))).err with _ | gm <;>
        simp only [gitCmd] at hg
      · rcases hr : w.restartRes id with _ | rm <;>
        · simp [updateHandler, hc, hd, hcwd, hg, hr, gitCmd, tailCmd] at hcmem
          tauto
      · simp [updateHandler, hc, hd, hcwd, hg, gitCmd, tailCmd] at hcmem
        tauto
    · simp [updateHandler, hc, hd, hcwd] at hcmem

/-- Witness for C10 at the concrete world `w0`. -/
theorem c10_witness :
    w0.connectErr = none ∧ w0.describeRes "api" = .ok [proc0] ∧
    ((logsHandler w0 "api" none).trace =
      [Event.execCmd ("pm2 logs " ++ "api" ++ " --lines "
        ++ numToStr (parseIntJS (jsOrStr none "30")) ++ " --nostream")] ∧
     (∀ c, Event.execCmd c ∈ (updateHandler w0 "api").trace →
       c = "cd " ++ proc0.pm2_env.pm_cwd.getD ""
             ++ " && git stash --include-untracked && git pull" ∨
       c = "pm2 logs " ++ "api" ++ " --lines 10 --nostream")) :=
  ⟨rfl, rfl, c10_raw_interpolation w0 "api" none proc0 [] rfl rfl⟩

end PM2Control
